import Mathlib

/-!
Verification of the Mentone Hockey Club data-pipeline scraper.

This file gives a shallow embedding of the parts of the pipeline that the
specification's checkable claims are about:

* the free-text classifiers of `backend/scripts/discover_teams.py` and
  `backend/scripts/discover_competitions.py` (`determine_gender`,
  `determine_team_type`, `determine_competition_type`);
* the write-side sanitiser `sanitize_for_firestore` of
  `backend/scripts/discover_competitions.py`;
* the results stage `update_game_result` / `update_game_in_firestore` of
  `backend/scripts/update_results.py`;
* the round-iteration loop of `backend/scripts/discover_games.py`
  (`discover_games_for_team`);
* the venue-slug derivations of `backend/extract_venues_cf.py` and
  `backend/scripts/extract_venues.py`;
* the orchestrator of `backend/app.py` (`run_modules_in_order` and the
  `/pipeline/full` runner `run_full_pipeline`).

Python strings are modelled as Lean `String`s restricted to the ASCII
behaviour the code relies on; Python's `in` substring test is modelled by
`substr`; `str.lower()` by `lower`.
-/

/-- Python's `needle in hay` substring test, on the underlying character
lists (contiguous-substring containment). -/
def substr (needle hay : String) : Bool :=
  decide (needle.toList <:+: hay.toList)

/-- Python's `str.lower()` on the ASCII inputs the scraper handles
(character-wise lowering). -/
def lower (s : String) : String :=
  String.mk (s.toList.map Char.toLower)

/-- Python's `str.upper()` on ASCII inputs (character-wise raising). -/
def upper (s : String) : String :=
  String.mk (s.toList.map Char.toUpper)

/-- The apostrophe character, used in grade names such as Men(')s. -/
def apos : Char := Char.ofNat 39

/-- Append an apostrophe to a string. -/
def apostr (s : String) : String := s.push apos

/-- `backend/scripts/discover_teams.py` — `determine_gender` (lines 161-179):
women keywords are tested before men keywords, then `mixed`, else
`"Unknown"`. -/
def teams_determine_gender (grade_name : String) : String :=
  let g := lower grade_name
  if substr (apostr "women" ++ "s") g || substr "women" g || substr "female" g
      || substr "girls" g || substr (apostr "w") g then "Women"
  else if substr (apostr "men" ++ "s") g || substr "men" g || substr "male" g
      || substr "boys" g || substr (apostr "m") g then "Men"
  else if substr "mixed" g then "Mixed"
  else "Unknown"

/-- `backend/scripts/discover_teams.py` — `determine_team_type`
(lines 181-204). -/
def determine_team_type (grade_name : String) : String :=
  let g := lower grade_name
  if substr "junior" g || substr "under" g || substr "u1" g then "Junior"
  else if substr "senior" g || substr "premier" g || substr "vic league" g
      || substr "pennant" g || substr "metro" g then "Senior"
  else if substr "master" g || substr "veteran" g || substr "35+" g
      || substr "45+" g then "Masters"
  else if substr "midweek" g then "Midweek"
  else if substr "indoor" g then "Indoor"
  else "Senior"

/-- `backend/scripts/discover_competitions.py` — `determine_gender`
(lines 281-299): men keywords are tested BEFORE women keywords. -/
def comps_determine_gender (name : String) : String :=
  let n := lower name
  if substr "men" n || substr "male" n || substr "boys" n
      || substr (apostr "men" ++ "s") n then "Men"
  else if substr "women" n || substr "female" n || substr "girls" n
      || substr (apostr "women" ++ "s") n then "Women"
  else if substr "mixed" n then "Mixed"
  else "Unknown"

/-- `backend/scripts/discover_competitions.py` — `determine_competition_type`
(lines 243-279): category keywords first (Python `if category:` treats the
empty string as absent), then name keywords, defaulting to `"Other"`. -/
def determine_competition_type (category name : String) : String :=
  let cat := lower category
  if category ≠ "" && substr "junior" cat then "Junior"
  else if category ≠ "" && substr "senior" cat then "Senior"
  else if category ≠ "" && substr "master" cat then "Masters"
  else
    let n := lower name
    if substr "junior" n || substr "under" n || substr "u1" n then "Junior"
    else if substr "senior" n || substr "premier" n || substr "pennant" n
        || substr "metro" n then "Senior"
    else if substr "master" n || substr "veteran" n || substr "35+" n
        || substr "45+" n then "Masters"
    else if substr "midweek" n then "Midweek"
    else if substr "indoor" n then "Indoor"
    else if substr "outdoor" n then "Outdoor"
    else "Other"

/-! ## The write-side sanitiser of the competitions stage

`backend/scripts/discover_competitions.py`, `sanitize_for_firestore`
(lines 31-66).  Python runtime values are modelled by `PyVal`; the `other`
constructor stands for a value of any type outside
`str/int/float/bool/datetime/dict/list/None` and carries its `str(...)`
form.  Floats and datetimes are carried abstractly (the sanitiser only
passes them through unchanged). -/

inductive PyVal where
  | none : PyVal
  | str : String → PyVal
  | int : Int → PyVal
  | float : Nat → PyVal
  | bool : Bool → PyVal
  | datetime : Nat → PyVal
  | list : List PyVal → PyVal
  | dict : List (String × PyVal) → PyVal
  | other : String → PyVal

mutual

/-- Entry-wise body of `sanitize_for_firestore`: `None` values are dropped,
nested dicts recursed into, lists mapped (sanitising dict items only),
basic types kept, and anything else replaced by its `str(...)` form. -/
def sanitizeEntries : List (String × PyVal) → List (String × PyVal)
  | [] => []
  | (_, .none) :: rest => sanitizeEntries rest
  | (k, .dict kvs) :: rest => (k, .dict (sanitizeEntries kvs)) :: sanitizeEntries rest
  | (k, .list items) :: rest => (k, .list (sanitizeItems items)) :: sanitizeEntries rest
  | (k, .str s) :: rest => (k, .str s) :: sanitizeEntries rest
  | (k, .int n) :: rest => (k, .int n) :: sanitizeEntries rest
  | (k, .float x) :: rest => (k, .float x) :: sanitizeEntries rest
  | (k, .bool b) :: rest => (k, .bool b) :: sanitizeEntries rest
  | (k, .datetime t) :: rest => (k, .datetime t) :: sanitizeEntries rest
  | (k, .other r) :: rest => (k, .str r) :: sanitizeEntries rest

/-- List comprehension of `sanitize_for_firestore`: only dict items are
sanitised, all other items pass through unchanged. -/
def sanitizeItems : List PyVal → List PyVal
  | [] => []
  | .dict kvs :: rest => .dict (sanitizeEntries kvs) :: sanitizeItems rest
  | v :: rest => v :: sanitizeItems rest

end

/-- `sanitize_for_firestore` itself: non-dict arguments are returned
unchanged. -/
def sanitize_for_firestore : PyVal → PyVal
  | .dict kvs => .dict (sanitizeEntries kvs)
  | v => v

mutual

/-- No key of the entry list has value `None`, recursively through nested
dicts and dicts inside lists. -/
def entriesNoNone : List (String × PyVal) → Bool
  | [] => true
  | (_, v) :: rest => keyValueOk v && entriesNoNone rest

/-- A key's value is acceptable: not `None`, and clean inside. -/
def keyValueOk : PyVal → Bool
  | .none => false
  | .dict kvs => entriesNoNone kvs
  | .list items => itemsNoNoneDict items
  | _ => true

/-- Dict items of a list contain no `None`-valued key. -/
def itemsNoNoneDict : List PyVal → Bool
  | [] => true
  | .dict kvs :: rest => entriesNoNone kvs && itemsNoNoneDict rest
  | _ :: rest => itemsNoNoneDict rest

end

/-- A basic Python value in the sense of the sanitiser:
`str/int/float/bool/datetime`. -/
def isBasicVal : PyVal → Bool
  | .str _ => true
  | .int _ => true
  | .float _ => true
  | .bool _ => true
  | .datetime _ => true
  | _ => false

mutual

theorem sanitizeEntries_noNone : ∀ kvs, entriesNoNone (sanitizeEntries kvs) = true
  | [] => by simp [sanitizeEntries, entriesNoNone]
  | (_, .none) :: rest => by
      simp [sanitizeEntries, sanitizeEntries_noNone rest]
  | (k, .dict kvs) :: rest => by
      simp [sanitizeEntries, entriesNoNone, keyValueOk,
        sanitizeEntries_noNone kvs, sanitizeEntries_noNone rest]
  | (k, .list items) :: rest => by
      simp [sanitizeEntries, entriesNoNone, keyValueOk,
        sanitizeItems_noNone items, sanitizeEntries_noNone rest]
  | (k, .str s) :: rest => by
      simp [sanitizeEntries, entriesNoNone, keyValueOk, sanitizeEntries_noNone rest]
  | (k, .int n) :: rest => by
      simp [sanitizeEntries, entriesNoNone, keyValueOk, sanitizeEntries_noNone rest]
  | (k, .float x) :: rest => by
      simp [sanitizeEntries, entriesNoNone, keyValueOk, sanitizeEntries_noNone rest]
  | (k, .bool b) :: rest => by
      simp [sanitizeEntries, entriesNoNone, keyValueOk, sanitizeEntries_noNone rest]
  | (k, .datetime t) :: rest => by
      simp [sanitizeEntries, entriesNoNone, keyValueOk, sanitizeEntries_noNone rest]
  | (k, .other r) :: rest => by
      simp [sanitizeEntries, entriesNoNone, keyValueOk, sanitizeEntries_noNone rest]

theorem sanitizeItems_noNone : ∀ items, itemsNoNoneDict (sanitizeItems items) = true
  | [] => by simp [sanitizeItems, itemsNoNoneDict]
  | .dict kvs :: rest => by
      simp [sanitizeItems, itemsNoNoneDict, sanitizeEntries_noNone kvs,
        sanitizeItems_noNone rest]
  | .none :: rest => by
      simp [sanitizeItems, itemsNoNoneDict, sanitizeItems_noNone rest]
  | .str s :: rest => by
      simp [sanitizeItems, itemsNoNoneDict, sanitizeItems_noNone rest]
  | .int n :: rest => by
      simp [sanitizeItems, itemsNoNoneDict, sanitizeItems_noNone rest]
  | .float x :: rest => by
      simp [sanitizeItems, itemsNoNoneDict, sanitizeItems_noNone rest]
  | .bool b :: rest => by
      simp [sanitizeItems, itemsNoNoneDict, sanitizeItems_noNone rest]
  | .datetime t :: rest => by
      simp [sanitizeItems, itemsNoNoneDict, sanitizeItems_noNone rest]
  | .list l :: rest => by
      simp [sanitizeItems, itemsNoNoneDict, sanitizeItems_noNone rest]
  | .other r :: rest => by
      simp [sanitizeItems, itemsNoNoneDict, sanitizeItems_noNone rest]

end

theorem sanitizeEntries_preserves_basic :
    ∀ kvs (k : String) (v : PyVal), (k, v) ∈ kvs → isBasicVal v = true →
      (k, v) ∈ sanitizeEntries kvs := by
  intro kvs
  induction kvs with
  | nil => intro k v h _; cases h
  | cons hd rest ih =>
    intro k v hmem hbasic
    obtain ⟨hk, hv⟩ := hd
    rcases List.mem_cons.mp hmem with heq | hrest
    · cases heq
      cases v <;> simp_all [sanitizeEntries, isBasicVal]
    · have := ih k v hrest hbasic
      cases hv <;> simp [sanitizeEntries, this]

theorem sanitizeEntries_converts_other :
    ∀ kvs (k : String) (r : String), (k, PyVal.other r) ∈ kvs →
      (k, PyVal.str r) ∈ sanitizeEntries kvs := by
  intro kvs
  induction kvs with
  | nil => intro k r h; cases h
  | cons hd rest ih =>
    intro k r hmem
    obtain ⟨hk, hv⟩ := hd
    rcases List.mem_cons.mp hmem with heq | hrest
    · cases heq
      simp [sanitizeEntries]
    · have := ih k r hrest
      cases hv <;> simp [sanitizeEntries, this]

/-! ## The pipeline orchestrator

`backend/app.py`.  `run_modules_in_order` (lines 137-222) filters the
requested module names through the canonical execution order, runs them
sequentially, and stops with job status `"failed"` as soon as a critical
module (`competitions` or `teams`) fails; otherwise the final status is
`"completed"`.  The `/pipeline/full` endpoint (`run_full_pipeline`,
lines 369-430) instead runs all six modules, continues past any failure,
and always ends with status `"completed"`.

A module's run outcome (the subprocess exiting 0) is abstracted as a
function `outcome : PipeModule → Bool`; a module appears in the `progress`
list exactly when the orchestrator invoked it (and hence when it could
perform writes). -/

inductive PipeModule where
  | competitions | teams | games | results | players | ladder
deriving DecidableEq, Repr

/-- The canonical execution order of `run_modules_in_order`. -/
def executionOrder : List PipeModule :=
  [.competitions, .teams, .games, .results, .players, .ladder]

/-- The position of a module in the canonical execution order. -/
def orderIdx : PipeModule → Nat
  | .competitions => 0
  | .teams => 1
  | .games => 2
  | .results => 3
  | .players => 4
  | .ladder => 5

/-- A critical module: `module in ["competitions", "teams"]`. -/
def isCritical : PipeModule → Bool
  | .competitions => true
  | .teams => true
  | _ => false

/-- A pipeline run record: the job status and, in order, the progress
entries `(module, success)` for each module that was actually run. -/
structure RunRecord where
  status : String
  progress : List (PipeModule × Bool)
deriving DecidableEq, Repr

/-- The sequential loop of `run_modules_in_order`'s `run_multi_async`:
run each module, record its outcome, stop with `"failed"` when a critical
module fails, and finish with `"completed"` otherwise. -/
def runSeq (outcome : PipeModule → Bool) : List PipeModule → List (PipeModule × Bool) × String
  | [] => ([], "completed")
  | m :: rest =>
    if outcome m then
      let r := runSeq outcome rest
      ((m, true) :: r.1, r.2)
    else if isCritical m then ([(m, false)], "failed")
    else
      let r := runSeq outcome rest
      ((m, false) :: r.1, r.2)

/-- `run_modules_in_order`: filter the requested modules through the
canonical order, then run them sequentially. -/
def run_modules_in_order (requested : List PipeModule) (outcome : PipeModule → Bool) :
    RunRecord :=
  let ordered := executionOrder.filter (fun m => requested.contains m)
  let r := runSeq outcome ordered
  ⟨r.2, r.1⟩

/-- The `/pipeline/full` endpoint's `run_full_async`: run all six modules,
record each outcome, never stop early, and always record status
`"completed"`. -/
def run_full_pipeline (outcome : PipeModule → Bool) : RunRecord :=
  ⟨"completed", executionOrder.map (fun m => (m, outcome m))⟩

/-- The modules a run actually invoked. -/
def RunRecord.executed (r : RunRecord) : List PipeModule :=
  r.progress.map Prod.fst

/-- `backend/scripts/discover_competitions.py` `main` (lines 404-408)
returns exit code 1 when no competitions were discovered, and
`run_pipeline_module` treats exit code 0 as success: so the competitions
stage succeeds only when it discovered at least one competition. -/
def competitions_success (numCompetitions : Nat) : Bool :=
  numCompetitions != 0

theorem runSeq_failed_of_critical_failure (outcome : PipeModule → Bool) :
    ∀ L (c : PipeModule), c ∈ L → isCritical c = true → outcome c = false →
      (runSeq outcome L).2 = "failed" := by
  intro L
  induction L with
  | nil => intro c hc; cases hc
  | cons m rest ih =>
    intro c hc hcrit hfail
    rcases List.mem_cons.mp hc with heq | hrest
    · subst heq
      simp [runSeq, hfail, hcrit]
    · by_cases hm : outcome m = true
      · simp [runSeq, hm, ih c hrest hcrit hfail]
      · rw [Bool.not_eq_true] at hm
        by_cases hmc : isCritical m = true
        · simp [runSeq, hm, hmc]
        · rw [Bool.not_eq_true] at hmc
          simp [runSeq, hm, hmc, ih c hrest hcrit hfail]

theorem runSeq_executed_before_critical_failure (outcome : PipeModule → Bool) :
    ∀ (L₁ L₂ : List PipeModule) (c : PipeModule), isCritical c = true →
      outcome c = false →
      ∀ p ∈ (runSeq outcome (L₁ ++ c :: L₂)).1, p.1 ∈ L₁ ∨ p.1 = c := by
  intro L₁
  induction L₁ with
  | nil =>
    intro L₂ c hcrit hfail p hp
    simp only [List.nil_append] at hp
    rw [runSeq, if_neg (by simp [hfail]), if_pos hcrit] at hp
    have h1 := List.mem_singleton.mp hp
    right; rw [h1]
  | cons a L₁ ih =>
    intro L₂ c hcrit hfail p hp
    simp only [List.cons_append] at hp
    by_cases ha : outcome a = true
    · rw [runSeq, if_pos ha] at hp
      rcases List.mem_cons.mp hp with heq | htl
      · left; rw [heq]; exact List.mem_cons_self a L₁
      · rcases ih L₂ c hcrit hfail p htl with h | h
        · exact Or.inl (List.mem_cons_of_mem a h)
        · exact Or.inr h
    · rw [Bool.not_eq_true] at ha
      by_cases hac : isCritical a = true
      · rw [runSeq, if_neg (by simp [ha]), if_pos hac] at hp
        have h1 := List.mem_singleton.mp hp
        left; rw [h1]; exact List.mem_cons_self a L₁
      · rw [Bool.not_eq_true] at hac
        rw [runSeq, if_neg (by simp [ha]), if_neg (by simp [hac])] at hp
        rcases List.mem_cons.mp hp with heq | htl
        · left; rw [heq]; exact List.mem_cons_self a L₁
        · rcases ih L₂ c hcrit hfail p htl with h | h
          · exact Or.inl (List.mem_cons_of_mem a h)
          · exact Or.inr h

theorem executionOrder_pairwise :
    executionOrder.Pairwise (fun a b => orderIdx a < orderIdx b) := by
  decide

theorem mem_executionOrder (m : PipeModule) : m ∈ executionOrder := by
  cases m <;> decide

/-- An outcome in which the competitions stage discovered zero competitions
(so its process exited 1) and every other stage succeeds. -/
def failCompsOutcome : PipeModule → Bool
  | .competitions => competitions_success 0
  | _ => true

/-- C1 (amended): for every run through `run_modules_in_order` (the
`/run-pipeline` endpoint and the setup/daily/weekly/fixtures bundles), if a
requested critical module fails — in particular when the competitions stage
discovers zero competitions — the recorded status is `"failed"` and no
module later in the canonical order is executed (so it performs no write).
The claim's extension to the `/pipeline/full` endpoint is refuted by
`full_pipeline_ignores_critical_failure`. -/
theorem critical_failure_aborts_run
    (requested : List PipeModule) (outcome : PipeModule → Bool) (c : PipeModule)
    (hcrit : isCritical c = true) (hreq : requested.contains c = true)
    (hfail : outcome c = false) :
    (run_modules_in_order requested outcome).status = "failed" ∧
    ∀ m : PipeModule, orderIdx c < orderIdx m →
      m ∉ (run_modules_in_order requested outcome).executed := by
  have hmem : c ∈ executionOrder.filter (fun m => requested.contains m) :=
    List.mem_filter.mpr ⟨mem_executionOrder c, hreq⟩
  constructor
  · exact runSeq_failed_of_critical_failure outcome _ c hmem hcrit hfail
  · intro m hlt hmemex
    have hpair : (executionOrder.filter (fun m => requested.contains m)).Pairwise
        (fun a b => orderIdx a < orderIdx b) := executionOrder_pairwise.filter _
    obtain ⟨L₁, L₂, heq⟩ := List.append_of_mem hmem
    simp only [run_modules_in_order, RunRecord.executed] at hmemex
    obtain ⟨p, hp, hpm⟩ := List.mem_map.mp hmemex
    rw [heq] at hp
    rcases runSeq_executed_before_critical_failure outcome L₁ L₂ c hcrit hfail p hp with h | h
    · rw [heq] at hpair
      have hrel := (List.pairwise_append.mp hpair).2.2
      have hmc : orderIdx p.1 < orderIdx c :=
        hrel p.1 h c (List.mem_cons_self c L₂)
      rw [hpm] at hmc
      omega
    · rw [hpm] at h
      rw [h] at hlt
      omega

/-- Witness for `critical_failure_aborts_run`: a full requested list with
the competitions stage discovering zero competitions is marked failed and
the games stage never runs. -/
theorem critical_failure_aborts_run_witness :
    (run_modules_in_order executionOrder failCompsOutcome).status = "failed" ∧
    PipeModule.games ∉ (run_modules_in_order executionOrder failCompsOutcome).executed := by
  have h := critical_failure_aborts_run executionOrder failCompsOutcome
    .competitions (by decide) (by decide) (by decide)
  exact ⟨h.1, h.2 .games (by decide)⟩

/-- C1 counterexample: under the `/pipeline/full` endpoint
(`run_full_pipeline`), a run whose competitions stage fails (zero
competitions discovered) still executes every later module and records
status `"completed"`, not `"failed"` — refuting the claim for the full
mode. -/
theorem full_pipeline_ignores_critical_failure :
    (run_full_pipeline failCompsOutcome).status = "completed" ∧
    (run_full_pipeline failCompsOutcome).status ≠ "failed" ∧
    PipeModule.games ∈ (run_full_pipeline failCompsOutcome).executed ∧
    PipeModule.ladder ∈ (run_full_pipeline failCompsOutcome).executed := by
  decide

/-! ## The results stage

`backend/scripts/update_results.py`.  The HTTP fetch and BeautifulSoup
selection (lines 44-90) are abstracted into a `GamePage` record carrying
the texts the code selects: the elements matching the score CSS selectors,
the `h1..h4` headers, the broad `div/p/span/td` texts, the optional
`.home-score`/`.away-score` element texts, the table rows (cell count and
row text) and the whole page text.  The regular-expression searches of the
code are implemented character-by-character with Python `re` semantics on
these texts. -/

/-- Digits of a decimal token to a number. -/
def digitsToNat (ds : List Char) : Nat :=
  ds.foldl (fun acc c => 10 * acc + (c.toNat - 48)) 0

/-- One attempt of `re.search(r'(\d+)\s*[-:]\s*(\d+)', text)` at the head
of the character list. -/
def tryScoreAt (cs : List Char) : Option (Nat × Nat) :=
  let ds := cs.takeWhile Char.isDigit
  if ds.isEmpty then none
  else
    let rest := (cs.dropWhile Char.isDigit).dropWhile Char.isWhitespace
    match rest with
    | [] => none
    | c :: rest2 =>
      if c = '-' || c = ':' then
        let rest3 := rest2.dropWhile Char.isWhitespace
        let ds2 := rest3.takeWhile Char.isDigit
        if ds2.isEmpty then none else some (digitsToNat ds, digitsToNat ds2)
      else none

/-- Leftmost match of `(\d+)\s*[-:]\s*(\d+)`. -/
def findScorePair : List Char → Option (Nat × Nat)
  | [] => none
  | c :: rest =>
    match tryScoreAt (c :: rest) with
    | some p => some p
    | none => findScorePair rest

/-- `re.search(r'(\d+)\s*[-:]\s*(\d+)', s)` on a string. -/
def findScorePairStr (s : String) : Option (Nat × Nat) :=
  findScorePair s.toList

/-- `re.findall(r'\d+', ...)`: all maximal digit runs, left to right.
The accumulator holds the digit run currently being read. -/
def findAllNatsAux : List Char → Option Nat → List Nat
  | [], Option.none => []
  | [], some n => [n]
  | c :: rest, acc =>
    if c.isDigit then
      match acc with
      | some n => findAllNatsAux rest (some (10 * n + (c.toNat - 48)))
      | Option.none => findAllNatsAux rest (some (c.toNat - 48))
    else
      match acc with
      | some n => n :: findAllNatsAux rest Option.none
      | Option.none => findAllNatsAux rest Option.none

/-- All `\d+` matches in a string. -/
def findAllNats (s : String) : List Nat :=
  findAllNatsAux s.toList Option.none

/-- Unsigned part of `backend/utils/parsing_utils.py` `extract_number`'s
pattern `\d+\.?\d*`, as an exact rational. -/
def parseUnsignedNumber (cs : List Char) : Option ℚ :=
  let ds := cs.takeWhile Char.isDigit
  if ds.isEmpty then none
  else
    let rest := cs.dropWhile Char.isDigit
    match rest with
    | '.' :: rest2 =>
      let fs := rest2.takeWhile Char.isDigit
      some ((digitsToNat ds : ℚ) + (digitsToNat fs : ℚ) / ((10 : ℚ) ^ fs.length))
    | _ => some (digitsToNat ds : ℚ)

/-- One attempt of `re.search(r'(-?\d+\.?\d*)', ...)` at the head. -/
def tryNumberAt (cs : List Char) : Option ℚ :=
  match cs with
  | '-' :: rest =>
    match parseUnsignedNumber rest with
    | some q => some (-q)
    | Option.none => none
  | _ => parseUnsignedNumber cs

/-- Leftmost `-?\d+\.?\d*` match. -/
def findNumber : List Char → Option ℚ
  | [] => none
  | c :: rest =>
    match tryNumberAt (c :: rest) with
    | some q => some q
    | Option.none => findNumber rest

/-- `backend/utils/parsing_utils.py` — `extract_number` (lines 36-61) with
default `None`; Python floats are modelled as exact decimals. -/
def extract_number (text : String) : Option ℚ :=
  if text = "" then none else findNumber text.toList

/-- `\w` word characters (ASCII). -/
def isWordChar (c : Char) : Bool :=
  c.isAlpha || c.isDigit || c == '_'

/-- One attempt of `re.search(r'(\w+\s+\w+)\s+forfeit', page_text)` at the
head; returns the captured group. -/
def tryForfeitAt (cs : List Char) : Option (List Char) :=
  let w1 := cs.takeWhile isWordChar
  if w1.isEmpty then none
  else
    let r1 := cs.dropWhile isWordChar
    let s1 := r1.takeWhile Char.isWhitespace
    if s1.isEmpty then none
    else
      let r2 := r1.dropWhile Char.isWhitespace
      let w2 := r2.takeWhile isWordChar
      if w2.isEmpty then none
      else
        let r3 := r2.dropWhile isWordChar
        let s2 := r3.takeWhile Char.isWhitespace
        if s2.isEmpty then none
        else
          let r4 := r3.dropWhile Char.isWhitespace
          if "forfeit".toList.isPrefixOf r4 then some (w1 ++ s1 ++ w2) else none

/-- Leftmost match of `(\w+\s+\w+)\s+forfeit`. -/
def findForfeitCtx : List Char → Option (List Char)
  | [] => none
  | c :: rest =>
    match tryForfeitAt (c :: rest) with
    | some g => some g
    | Option.none => findForfeitCtx rest

/-- A team embed inside a game document. -/
structure TeamEmbed where
  id : Option String
  name : String
  club : String
  short_name : String
  score : Option ℚ
deriving DecidableEq, Repr

/-- A game document as stored in the `games` collection (the fields the
games and results stages touch or must preserve). -/
structure GameDoc where
  status : String
  date : Nat
  venue : String
  venue_code : String
  round : Nat
  url : Option String
  comp_id : String
  fixture_id : String
  mentone_playing : Bool
  home_team : TeamEmbed
  away_team : TeamEmbed
  mentone_result : Option String
  competition_ref : Option String
  grade_ref : Option String
  created_at : Nat
  updated_at : Nat
deriving DecidableEq, Repr

/-- The selections `update_game_result` makes on the fetched game page. -/
structure GamePage where
  cssScoreTexts : List String
  headerTexts : List String
  broadTexts : List String
  homeScoreText : Option String
  awayScoreText : Option String
  tableRows : List (Nat × String)
  pageText : String

/-- Lines 69-89: the CSS-selected score elements, else the first header
with a score pattern, else the first broad element with one. -/
def findScoreElements (p : GamePage) : List String :=
  if !p.cssScoreTexts.isEmpty then p.cssScoreTexts
  else
    match p.headerTexts.find? (fun t => (findScorePairStr t).isSome) with
    | some h => [h]
    | Option.none =>
      match p.broadTexts.find? (fun t => (findScorePairStr t).isSome) with
      | some b => [b]
      | Option.none => []

/-- Lines 93-97: any of the completion indicators in the lowered page
text. -/
def resultIndicatorPresent (p : GamePage) : Bool :=
  let t := lower p.pageText
  substr "final score" t || substr "result" t ||
    substr "match complete" t || substr "full time" t

/-- Lines 144-165: first table row with at least two cells whose lowered
text contains both team names and at least two digit runs. -/
def findTableScores (p : GamePage) (d : GameDoc) : Option (Nat × Nat) :=
  let hname := lower d.home_team.name
  let aname := lower d.away_team.name
  p.tableRows.findSome? (fun row =>
    if row.1 ≥ 2 && substr hname (lower row.2) && substr aname (lower row.2) then
      match findAllNats (lower row.2) with
      | n0 :: n1 :: _ => some (n0, n1)
      | _ => none
    else none)

/-- Lines 167-199: the forfeit/cancelled/postponed/abandoned scan, reached
when no scores were found.  On `forfeit`, a 3-0/0-3/0-0 scoreline is
inferred from the `(\w+\s+\w+)\s+forfeit` context; on the other terms the
scores are reset to `None`.  (The local `game_status` the Python code
computes here is dead: it is never used in the returned update.) -/
def applyForfeitTerms (p : GamePage) (d : GameDoc) (h a : Option ℚ) :
    Option ℚ × Option ℚ :=
  let txt := lower p.pageText
  if substr "forfeit" txt then
    match findForfeitCtx txt.toList with
    | some ctx =>
      if decide ((lower d.home_team.name).toList <:+: ctx) then
        (some 0, some 3)
      else if decide ((lower d.away_team.name).toList <:+: ctx) then
        (some 3, some 0)
      else (some 0, some 0)
    | Option.none => (h, a)
  else if substr "cancelled" txt then (none, none)
  else if substr "postponed" txt then (none, none)
  else if substr "abandoned" txt then (none, none)
  else (h, a)

/-- Lines 117-199: the score-extraction cascade (score elements, then the
home/away score elements, then tables, then the forfeit scan). -/
def computeScores (p : GamePage) (d : GameDoc) : Option ℚ × Option ℚ :=
  let s0 := (findScoreElements p).findSome? findScorePairStr
  let hs0 : Option ℚ := s0.map (fun q => (q.1 : ℚ))
  let as0 : Option ℚ := s0.map (fun q => (q.2 : ℚ))
  let r1 : Option ℚ × Option ℚ :=
    if hs0.isNone || as0.isNone then
      match p.homeScoreText, p.awayScoreText with
      | some ht, some awt => (extract_number ht, extract_number awt)
      | _, _ => (hs0, as0)
    else (hs0, as0)
  let r2 : Option ℚ × Option ℚ :=
    if r1.1.isNone || r1.2.isNone then
      match findTableScores p d with
      | some nn => (some (nn.1 : ℚ), some (nn.2 : ℚ))
      | Option.none => r1
    else r1
  if r2.1.isNone || r2.2.isNone then applyForfeitTerms p d r2.1 r2.2 else r2

/-- The update dictionary shape of lines 202-214: spread the read game,
overwrite status, both team embeds' scores, and `updated_at`. -/
def setScores (d : GameDoc) (now : Nat) (st : String) (h a : Option ℚ) :
    GameDoc :=
  { d with
    status := st
    updated_at := now
    home_team := { d.home_team with score := h }
    away_team := { d.away_team with score := a } }

/-- Lines 217-234: derive `mentone_result` when the updated status is
completed, both scores are present, and one side's club is Mentone. -/
def applyMentoneResult (base d : GameDoc) (st : String) (h a : Option ℚ) :
    GameDoc :=
  match h, a with
  | some hv, some av =>
    if st = "completed" then
      if d.home_team.club = "Mentone" then
        let r := if hv > av then "win" else if hv < av then "loss" else "draw"
        { base with mentone_result := some r }
      else if d.away_team.club = "Mentone" then
        let r := if av > hv then "win" else if av < hv then "loss" else "draw"
        { base with mentone_result := some r }
      else base
    else base
  | _, _ => base

/-- Build the returned update from the extracted scores (lines 202-237):
status falls back to the game's prior status when both scores are `None`,
else `"completed"`. -/
def finishUpdate (d : GameDoc) (now : Nat)
    (ha : Option ℚ × Option ℚ) : GameDoc :=
  let st := if ha.1.isNone && ha.2.isNone then d.status else "completed"
  applyMentoneResult (setScores d now st ha.1 ha.2) d st ha.1 ha.2

/-- `update_game_result` (lines 33-237): `none` models the Python `None`
return (no update written). -/
def update_game_result (p : GamePage) (d : GameDoc) (now : Nat) :
    Option GameDoc :=
  if (findScoreElements p).isEmpty then
    if resultIndicatorPresent p then some (setScores d now "completed" none none)
    else none
  else some (finishUpdate d now (computeScores p d))

/-- `update_game_in_firestore` (lines 239-282): the Firestore
`games/{id}.update(update_data)` with
`update_data = {status, updated_at, home_team, away_team}` plus
`mentone_result` when that key is present in the updated game. -/
def update_game_in_firestore (stored : GameDoc) (g : GameDoc) : GameDoc :=
  let mr := if g.mentone_result.isSome then g.mentone_result else stored.mentone_result
  { stored with
    status := g.status
    updated_at := g.updated_at
    home_team := g.home_team
    away_team := g.away_team
    mentone_result := mr }

/-- A representative stored game document (a scheduled Mentone home
game). -/
def sampleDoc : GameDoc :=
  { status := "scheduled"
    date := 1715400000
    venue := "Mentone Grammar Playing Fields"
    venue_code := "MGPF"
    round := 4
    url := some "https://www.hockeyvictoria.org.au/games/game/2048530"
    comp_id := "22076"
    fixture_id := "37393"
    mentone_playing := true
    home_team := ⟨some "337089", "Mentone Panthers", "Mentone", "Mentone", none⟩
    away_team := ⟨some "337090", "Camberwell Cobras", "Camberwell", "Camberwell", none⟩
    mentone_result := none
    competition_ref := some "competitions/22076"
    grade_ref := some "grades/22076"
    created_at := 1715000000
    updated_at := 1715000000 }

/-- A game page whose prominent heading carries the scoreline 3 - 2. -/
def scorePage : GamePage :=
  ⟨["3 - 2"], [], [], none, none, [], "full time 3 - 2"⟩

/-- A game page carrying only the keyword `cancelled`: an element of CSS
class `result` with no digits, and the keyword in the page text. -/
def cancelledPage : GamePage :=
  ⟨["Cancelled"], [], [], none, none, [], "This match is cancelled"⟩

/-- A game page indicating a forfeit by the home side, with no scoreline
anywhere. -/
def forfeitPage : GamePage :=
  ⟨["Forfeit"], [], [], none, none, [],
    "Mentone Panthers forfeit due to unavailable players"⟩

/-- Every field of the update outside the result-owned set, compared after
applying the Results write against the stored document. -/
def resultsFramePreserved (stored g : GameDoc) : Prop :=
  let d2 := update_game_in_firestore stored g
  d2.venue = stored.venue ∧ d2.venue_code = stored.venue_code ∧
  d2.date = stored.date ∧ d2.round = stored.round ∧ d2.url = stored.url ∧
  d2.comp_id = stored.comp_id ∧ d2.fixture_id = stored.fixture_id ∧
  d2.mentone_playing = stored.mentone_playing ∧
  d2.created_at = stored.created_at ∧
  d2.competition_ref = stored.competition_ref ∧
  d2.grade_ref = stored.grade_ref ∧
  d2.home_team.id = stored.home_team.id ∧
  d2.home_team.name = stored.home_team.name ∧
  d2.home_team.club = stored.home_team.club ∧
  d2.home_team.short_name = stored.home_team.short_name ∧
  d2.away_team.id = stored.away_team.id ∧
  d2.away_team.name = stored.away_team.name ∧
  d2.away_team.club = stored.away_team.club ∧
  d2.away_team.short_name = stored.away_team.short_name

theorem applyMentoneResult_home_team (base d : GameDoc) (st : String)
    (h a : Option ℚ) :
    (applyMentoneResult base d st h a).home_team = base.home_team := by
  unfold applyMentoneResult
  cases h with
  | none => rfl
  | some hv =>
    cases a with
    | none => rfl
    | some av => split_ifs <;> rfl

theorem applyMentoneResult_away_team (base d : GameDoc) (st : String)
    (h a : Option ℚ) :
    (applyMentoneResult base d st h a).away_team = base.away_team := by
  unfold applyMentoneResult
  cases h with
  | none => rfl
  | some hv =>
    cases a with
    | none => rfl
    | some av => split_ifs <;> rfl

theorem finishUpdate_home_team (d : GameDoc) (now : Nat)
    (ha : Option ℚ × Option ℚ) :
    (finishUpdate d now ha).home_team = { d.home_team with score := ha.1 } := by
  unfold finishUpdate
  rw [applyMentoneResult_home_team]
  rfl

theorem finishUpdate_away_team (d : GameDoc) (now : Nat)
    (ha : Option ℚ × Option ℚ) :
    (finishUpdate d now ha).away_team = { d.away_team with score := ha.2 } := by
  unfold finishUpdate
  rw [applyMentoneResult_away_team]
  rfl

theorem finishUpdate_team_fields (d : GameDoc) (now : Nat)
    (ha : Option ℚ × Option ℚ) :
    (finishUpdate d now ha).home_team.id = d.home_team.id ∧
    (finishUpdate d now ha).home_team.name = d.home_team.name ∧
    (finishUpdate d now ha).home_team.club = d.home_team.club ∧
    (finishUpdate d now ha).home_team.short_name = d.home_team.short_name ∧
    (finishUpdate d now ha).away_team.id = d.away_team.id ∧
    (finishUpdate d now ha).away_team.name = d.away_team.name ∧
    (finishUpdate d now ha).away_team.club = d.away_team.club ∧
    (finishUpdate d now ha).away_team.short_name = d.away_team.short_name := by
  refine ⟨?_, ?_, ?_, ?_, ?_, ?_, ?_, ?_⟩ <;>
    simp [finishUpdate_home_team, finishUpdate_away_team]

theorem update_game_result_team_fields (p : GamePage) (d : GameDoc) (now : Nat)
    (g : GameDoc) (hg : update_game_result p d now = some g) :
    g.home_team.id = d.home_team.id ∧
    g.home_team.name = d.home_team.name ∧
    g.home_team.club = d.home_team.club ∧
    g.home_team.short_name = d.home_team.short_name ∧
    g.away_team.id = d.away_team.id ∧
    g.away_team.name = d.away_team.name ∧
    g.away_team.club = d.away_team.club ∧
    g.away_team.short_name = d.away_team.short_name := by
  unfold update_game_result at hg
  by_cases h1 : (findScoreElements p).isEmpty
  · rw [if_pos h1] at hg
    by_cases h2 : resultIndicatorPresent p = true
    · rw [if_pos h2] at hg
      injection hg with hgv
      subst hgv
      simp [setScores]
    · rw [if_neg h2] at hg
      exact Option.noConfusion hg
  · rw [if_neg h1] at hg
    injection hg with hgv
    subst hgv
    exact finishUpdate_team_fields d now (computeScores p d)

/-- C2: for every game the Results stage updates, the Firestore write sets
only the result-owned fields (status, the two team scores, mentone_result
and updated_at); every other field of the stored document — venue, date,
round, URL, ids, references and the team identity fields — has the same
value after the write as before. -/
theorem results_stage_frame (p : GamePage) (d : GameDoc) (now : Nat)
    (g : GameDoc) (hg : update_game_result p d now = some g) :
    resultsFramePreserved d g := by
  have hid := update_game_result_team_fields p d now g hg
  unfold resultsFramePreserved update_game_in_firestore
  refine ⟨rfl, rfl, rfl, rfl, rfl, rfl, rfl, rfl, rfl, rfl, rfl, ?_, ?_, ?_, ?_, ?_, ?_, ?_, ?_⟩
  · exact hid.1
  · exact hid.2.1
  · exact hid.2.2.1
  · exact hid.2.2.2.1
  · exact hid.2.2.2.2.1
  · exact hid.2.2.2.2.2.1
  · exact hid.2.2.2.2.2.2.1
  · exact hid.2.2.2.2.2.2.2

/-- The update produced for `scorePage` on `sampleDoc`. -/
def sampleUpdatedDoc : GameDoc :=
  { sampleDoc with
    status := "completed"
    updated_at := 5
    home_team := { sampleDoc.home_team with score := some 3 }
    away_team := { sampleDoc.away_team with score := some 2 }
    mentone_result := some "win" }

/-- Witness for `results_stage_frame` at the concrete scoreline page. -/
theorem results_stage_frame_witness :
    resultsFramePreserved sampleDoc sampleUpdatedDoc :=
  results_stage_frame scorePage sampleDoc 5 sampleUpdatedDoc (by decide)

/-! ## The games stage round iteration

`backend/scripts/discover_games.py`, `discover_games_for_team`
(lines 38-314).  A round page either fails to fetch (non-200/no response)
or yields some number of `div.card-body` game cards of which some number
parse into games.  The loop starts at round 1, fetches one page per
iteration, runs while `round_num <= max_rounds`, and breaks on fetch
failure or on the third consecutive empty round; when cards are found the
empty-round counter is reset before the parsed-games check. -/

inductive RoundPage where
  | fail : RoundPage
  | page (cards : Nat) (parsedGames : Nat) : RoundPage

/-- The loop body, counting the fetches performed.  `fuel` is the number
of remaining iterations allowed by `round_num <= max_rounds`;
`emptyCount` is `empty_rounds_count`. -/
def gamesLoopFetches (pages : Nat → RoundPage) :
    Nat → Nat → Nat → Nat
  | 0, _, _ => 0
  | fuel + 1, roundNum, emptyCount =>
    match pages roundNum with
    | .fail => 1
    | .page cards parsedGames =>
      if cards = 0 then
        if emptyCount + 1 ≥ 3 then 1
        else 1 + gamesLoopFetches pages fuel (roundNum + 1) (emptyCount + 1)
      else if parsedGames = 0 then
        1 + gamesLoopFetches pages fuel (roundNum + 1) 1
      else 1 + gamesLoopFetches pages fuel (roundNum + 1) 0

/-- The number of round pages `discover_games_for_team` fetches for one
grade: the loop enters with `round_num = 1`, `empty_rounds_count = 0`, and
runs while `round_num <= max_rounds`. -/
def discover_games_for_team_fetches (pages : Nat → RoundPage)
    (max_rounds : Nat) : Nat :=
  gamesLoopFetches pages max_rounds 1 0

/-- The default `MAX_ROUNDS_TO_CHECK` of `discover_games.py`. -/
def MAX_ROUNDS_TO_CHECK : Nat := 23

theorem gamesLoopFetches_le_fuel (pages : Nat → RoundPage) :
    ∀ fuel roundNum emptyCount,
      gamesLoopFetches pages fuel roundNum emptyCount ≤ fuel := by
  intro fuel
  induction fuel with
  | zero => intro r e; simp [gamesLoopFetches]
  | succ n ih =>
    intro r e
    unfold gamesLoopFetches
    split
    · omega
    · split_ifs <;>
        (have hA := ih (r + 1) (e + 1)
         have hB := ih (r + 1) 1
         have hC := ih (r + 1) 0
         omega)

/-- C7: the round iteration of the Games stage terminates (it is a total
function of the page sequence), fetches at most `max_rounds ≤
3 + max_rounds` round pages, and when rounds 1, 2 and 3 each return a page
with no game cards it performs exactly three fetches. -/
theorem games_round_iteration_bounded (pages : Nat → RoundPage)
    (max_rounds : Nat) :
    discover_games_for_team_fetches pages max_rounds ≤ 3 + max_rounds ∧
    ((3 ≤ max_rounds ∧ pages 1 = .page 0 0 ∧ pages 2 = .page 0 0 ∧
        pages 3 = .page 0 0) →
      discover_games_for_team_fetches pages max_rounds = 3) := by
  constructor
  · have := gamesLoopFetches_le_fuel pages max_rounds 1 0
    unfold discover_games_for_team_fetches
    omega
  · rintro ⟨h3, h1, h2, hp3⟩
    obtain ⟨k, rfl⟩ : ∃ k, max_rounds = k + 3 := ⟨max_rounds - 3, by omega⟩
    show gamesLoopFetches pages (k + 3) 1 0 = 3
    simp only [gamesLoopFetches, h1, h2, hp3]
    norm_num

/-- Witness for `games_round_iteration_bounded`: with the default 23
rounds and every page empty, exactly three pages are fetched, within the
`3 + 23` bound. -/
theorem games_round_iteration_bounded_witness :
    discover_games_for_team_fetches (fun _ => .page 0 0) MAX_ROUNDS_TO_CHECK ≤
      3 + MAX_ROUNDS_TO_CHECK ∧
    discover_games_for_team_fetches (fun _ => .page 0 0) MAX_ROUNDS_TO_CHECK = 3 := by
  have h := games_round_iteration_bounded (fun _ => .page 0 0) MAX_ROUNDS_TO_CHECK
  exact ⟨h.1, h.2 ⟨by decide, rfl, rfl, rfl⟩⟩

/-! ## Venue slug derivation

`backend/extract_venues_cf.py`, `extract_venue_info_cf` (lines 116-130):
the document id is built from `name` (plus `"_"` and the first
comma-segment of the address when an address was found), uppercased,
stripped of characters outside `[A-Z0-9_]` (case-insensitively), with
underscore runs collapsed, edge underscores stripped, and truncated to 50
characters.  `backend/scripts/extract_venues.py` (lines 113-125 and
`save_venue_to_firestore`, lines 220-239) instead keys the venue document
by `venue_code`: the first 10 characters of the uppercased alphanumerics
of the name alone. -/

/-- Python `address.split(',')[0]`. -/
def firstAddressSegment (address : String) : String :=
  String.mk (address.toList.takeWhile (fun c => c ≠ ','))

/-- The character class `[A-Z0-9_]` with `re.IGNORECASE`. -/
def keepSlugChar (c : Char) : Bool :=
  c.isAlpha || c.isDigit || c == '_'

/-- `re.sub(r'_+', '_', ...)`: collapse each run of underscores to one;
the flag records whether the previous kept character was an underscore. -/
def collapseUnderscoresAux : Bool → List Char → List Char
  | _, [] => []
  | prevU, c :: rest =>
    if c = '_' then
      if prevU then collapseUnderscoresAux true rest
      else '_' :: collapseUnderscoresAux true rest
    else c :: collapseUnderscoresAux false rest

/-- Python `.strip('_')`. -/
def stripUnderscores (cs : List Char) : List Char :=
  ((cs.dropWhile (fun c => c = '_')).reverse.dropWhile (fun c => c = '_')).reverse

/-- The venue document id of `extract_venue_info_cf` (an empty address is
falsy in Python, so it contributes nothing). -/
def extract_venue_slug_cf (name address : String) : String :=
  let code_base :=
    if address ≠ "" then name ++ "_" ++ firstAddressSegment address else name
  let kept := (upper code_base).toList.filter keepSlugChar
  String.mk ((stripUnderscores (collapseUnderscoresAux false kept)).take 50)

/-- The `venue_code` document id of `scripts/extract_venues.py`: the first
10 uppercased alphanumerics of the name. -/
def extract_venue_code_scripts (name : String) : String :=
  String.mk (((name.toList.filter (fun c => c.isAlpha || c.isDigit)).map
    Char.toUpper).take 10)

/-- The slug formula exactly as the specification words it (for
comparison with the implementations): the uppercased alphanumerics of the
name, `'_'`, the uppercased alphanumerics of the first address segment,
trimmed to 50 characters. -/
def venue_slug_spec (name address : String) : String :=
  let up := fun (s : String) =>
    (s.toList.filter (fun c => c.isAlpha || c.isDigit)).map Char.toUpper
  String.mk ((up name ++ ['_'] ++ up (firstAddressSegment address)).take 50)

/-- C9 counterexample: `scripts/extract_venues.py` keys the venue document
by the first 10 alphanumerics of the name alone, which differs from the
spec's name-plus-address slug on a concrete venue. -/
theorem venue_key_scripts_differs_from_spec :
    extract_venue_code_scripts "Mentone Grammar Playing Fields" = "MENTONEGRA" ∧
    venue_slug_spec "Mentone Grammar Playing Fields" "Keysborough Road, Keysborough" =
      "MENTONEGRAMMARPLAYINGFIELDS_KEYSBOROUGHROAD" ∧
    extract_venue_code_scripts "Mentone Grammar Playing Fields" ≠
      venue_slug_spec "Mentone Grammar Playing Fields" "Keysborough Road, Keysborough" := by
  decide

/-- C9 (amended): the cloud-function implementation derives the document
id from the uppercased alphanumerics-and-underscores of
`name + "_" + first address segment` (underscore runs collapsed, edges
stripped) truncated to at most 50 characters — shown on a concrete venue
and bounded for all inputs — while the scripts implementation uses only
the first 10 uppercased alphanumerics of the name. -/
theorem venue_slug_properties :
    (∀ name address : String, (extract_venue_slug_cf name address).length ≤ 50) ∧
    extract_venue_slug_cf "Mentone Grammar Playing Fields" "Keysborough Road, Keysborough" =
      "MENTONEGRAMMARPLAYINGFIELDS_KEYSBOROUGHROAD" ∧
    (∀ name : String, (extract_venue_code_scripts name).length ≤ 10) ∧
    extract_venue_code_scripts "Mentone Grammar Playing Fields" = "MENTONEGRA" := by
  refine ⟨?_, by decide, ?_, by decide⟩
  · intro nm ad
    show (List.take 50 _).length ≤ 50
    rw [List.length_take]
    omega
  · intro nm
    show (List.take 10 _).length ≤ 10
    rw [List.length_take]
    omega

/-! ## Claim theorems for the classifiers and the results state machine -/

/-- C3: on a page carrying only a special-status keyword (here
`cancelled`) and no integer scoreline, `update_game_result` leaves the
game's status at its prior value (`scheduled`) instead of the keyword —
the `game_status` the code computes in that branch is never used. -/
theorem cancelled_page_keeps_prior_status :
    (update_game_result cancelledPage sampleDoc 7).map GameDoc.status =
      some "scheduled" ∧
    (update_game_result cancelledPage sampleDoc 7).map GameDoc.status ≠
      some "cancelled" := by
  decide

/-- C4: on a page indicating a forfeit by the home team with no explicit
scoreline anywhere, `update_game_result` infers the default 0-3 scoreline,
sets `mentone_result` and marks the game completed — contrary to the
specification's choice of leaving scores and `mentone_result` unset. -/
theorem forfeit_page_infers_default_scoreline :
    (update_game_result forfeitPage sampleDoc 7).map
      (fun g => (g.home_team.score, g.away_team.score, g.mentone_result,
        g.status)) =
      some (some 0, some 3, some "loss", "completed") := by
  decide

/-- C5 counterexample: the team-type classifier returns `"Masters"` (not
the claimed `"Midweek"`) for Masters Women 45+, and `"Senior"` (not the
claimed `"Social/Other"`) for Mixed Summer Social. -/
theorem classifier_masters_not_midweek :
    determine_team_type "Masters Women 45+" = "Masters" ∧
    determine_team_type "Masters Women 45+" ≠ "Midweek" ∧
    determine_team_type "Mixed Summer Social" = "Senior" ∧
    determine_team_type "Mixed Summer Social" ≠ "Social/Other" := by
  decide

/-- C5 (amended): the five literal grade names map under the
discover_teams classifiers to (Senior, Men), (Senior, Women),
(Junior, Men), (Masters, Women) and (Senior, Mixed). -/
theorem classifier_boundary_cases :
    (determine_team_type (apostr "Men" ++ "s Pennant B - 2025"),
      teams_determine_gender (apostr "Men" ++ "s Pennant B - 2025")) =
        ("Senior", "Men") ∧
    (determine_team_type (apostr "Women" ++ "s Vic League 1"),
      teams_determine_gender (apostr "Women" ++ "s Vic League 1")) =
        ("Senior", "Women") ∧
    (determine_team_type "U16 Boys State League",
      teams_determine_gender "U16 Boys State League") = ("Junior", "Men") ∧
    (determine_team_type "Masters Women 45+",
      teams_determine_gender "Masters Women 45+") = ("Masters", "Women") ∧
    (determine_team_type "Mixed Summer Social",
      teams_determine_gender "Mixed Summer Social") = ("Senior", "Mixed") := by
  decide

/-- Substring containment is transitive along a fixed infix. -/
theorem substr_of_infix_of_substr {a b : String} (hay : String)
    (hab : a.toList <:+: b.toList) (h : substr b hay = true) :
    substr a hay = true := by
  unfold substr at *
  exact decide_eq_true (hab.trans (of_decide_eq_true h))

/-- C6 counterexample: the competitions-stage gender classifier tests men
keywords first, so a name containing `women` (which contains `men`)
classifies as Men; and a name flagged only by `ladies` classifies as
Unknown in the teams-stage classifier (`ladies` is not a keyword). -/
theorem gender_claim_counterexample :
    comps_determine_gender (apostr "Women" ++ "s Vic League 1") = "Men" ∧
    comps_determine_gender (apostr "Women" ++ "s Vic League 1") ≠ "Women" ∧
    teams_determine_gender "Ladies Social Hockey" = "Unknown" := by
  decide

/-- C6 (amended): any name containing `women` or `girls`
(case-insensitively) is classified Women by the discover_teams gender
classifier, whose women keywords are tested before its men keywords; but
the discover_competitions classifier tests men keywords first, so any name
containing `women` is classified Men there. -/
theorem gender_women_keyword_behaviour (s : String)
    (h : substr "women" (lower s) = true ∨ substr "girls" (lower s) = true) :
    teams_determine_gender s = "Women" ∧
    (substr "women" (lower s) = true → comps_determine_gender s = "Men") := by
  constructor
  · rcases h with h | h <;> simp [teams_determine_gender, h]
  · intro hw
    have hmen : substr "men" (lower s) = true :=
      substr_of_infix_of_substr (lower s) (by decide) hw
    simp [comps_determine_gender, hmen]

/-- Witness for `gender_women_keyword_behaviour` at a concrete grade
name. -/
theorem gender_women_keyword_behaviour_witness :
    teams_determine_gender (apostr "Women" ++ "s Vic League 1") = "Women" ∧
    comps_determine_gender (apostr "Women" ++ "s Vic League 1") = "Men" := by
  have h := gender_women_keyword_behaviour (apostr "Women" ++ "s Vic League 1")
    (Or.inl (by decide))
  exact ⟨h.1, h.2 (by decide)⟩

/-- C8: the team-type classifiers are total functions and never return
`"Unknown"`: every decision path of `determine_team_type` and
`determine_competition_type` ends in a concrete type, with defaults
`"Senior"` and `"Other"`. -/
theorem classifier_totality (category s : String) (h : s ≠ "") :
    determine_team_type s ≠ "Unknown" ∧
    determine_competition_type category s ≠ "Unknown" := by
  constructor
  · simp only [determine_team_type]
    split_ifs <;> decide
  · simp only [determine_competition_type]
    split_ifs <;> decide

/-- Witness for `classifier_totality`. -/
theorem classifier_totality_witness :
    determine_team_type "x" ≠ "Unknown" ∧
    determine_competition_type "" "x" ≠ "Unknown" :=
  classifier_totality "" "x" (by decide)

/-- C10: the competitions-stage sanitiser leaves no `None`-valued key
anywhere (recursively, through nested dicts and dicts inside lists),
preserves str/int/float/bool/datetime values unchanged, converts any other
value to its string form, and acts entry-wise on the document dict. -/
theorem sanitize_for_firestore_spec :
    (∀ kvs, entriesNoNone (sanitizeEntries kvs) = true) ∧
    (∀ kvs (k : String) (v : PyVal), (k, v) ∈ kvs → isBasicVal v = true →
      (k, v) ∈ sanitizeEntries kvs) ∧
    (∀ kvs (k r : String), (k, PyVal.other r) ∈ kvs →
      (k, PyVal.str r) ∈ sanitizeEntries kvs) ∧
    (∀ kvs, sanitize_for_firestore (.dict kvs) = .dict (sanitizeEntries kvs)) :=
  ⟨sanitizeEntries_noNone, sanitizeEntries_preserves_basic,
    sanitizeEntries_converts_other, fun _ => rfl⟩

/-- Witness for `sanitize_for_firestore_spec` on a document with a null
field, a basic field and a non-basic field. -/
theorem sanitize_for_firestore_spec_witness :
    entriesNoNone (sanitizeEntries
      [("a", PyVal.none), ("b", PyVal.int 3), ("c", PyVal.other "obj")]) = true ∧
    ("b", PyVal.int 3) ∈ sanitizeEntries
      [("a", PyVal.none), ("b", PyVal.int 3), ("c", PyVal.other "obj")] ∧
    ("c", PyVal.str "obj") ∈ sanitizeEntries
      [("a", PyVal.none), ("b", PyVal.int 3), ("c", PyVal.other "obj")] := by
  refine ⟨sanitize_for_firestore_spec.1 _, ?_, ?_⟩
  · exact sanitize_for_firestore_spec.2.1 _ "b" (PyVal.int 3) (by simp) rfl
  · exact sanitize_for_firestore_spec.2.2.1 _ "c" "obj" (by simp)
